import Mathlib

/-!
Shallow embedding of the oauth2-rs client engine (src/src/lib.rs) and proofs
about its request assembly, response classification, token-response
serialization, and device-code polling loop.

Modelling conventions:
* Strings are modelled as Lean `String`; byte-level operations act on the
  character code points (`Char.toNat`), which coincides with the byte view for
  ASCII data (all protocol-relevant strings here are ASCII).
* Rust `std::time::Duration` values are whole seconds (`Nat`); every duration
  in the modelled code paths is constructed from whole seconds
  (`Duration::from_secs`, server-advertised intervals), so the embedding loses
  nothing.  `u64` overflow of `Duration::checked_mul` is modelled explicitly.
* Timestamps (`chrono::DateTime<Utc>`) are unbounded integers (seconds).
  `chrono::Duration::from_std` fails when the duration exceeds `i64::MAX`
  milliseconds; that guard is modelled.  `checked_add_signed` range overflow
  (an external-crate bound never reached in any claim) is not modelled: the
  embedding adds unbounded integers.
* `serde_json` is an external collaborator: body parsing is a parameter
  (`String → Option α`).  A `Parse` error retains the raw body, as in the
  source; the `serde_json::Error` payload itself is external and dropped.
* Transport errors (`RE`) are an opaque type parameter, as in the source.
-/

namespace OAuth2

/-- Lowercase one character (ASCII lowering, matching Rust `to_lowercase`
and `eq_ignore_ascii_case` semantics on ASCII data). -/
def lowerChar (c : Char) : Char :=
  if 65 ≤ c.toNat ∧ c.toNat ≤ 90 then Char.ofNat (c.toNat + 32) else c

/-- Lowercase a string character-wise (ASCII lowering, matching Rust
`to_lowercase` on ASCII data). -/
def strLower (s : String) : String := String.mk (s.data.map lowerChar)

/-- Prefix test on character lists. -/
def chStartsWith : List Char → List Char → Bool
  | _, [] => true
  | [], _ :: _ => false
  | a :: as, b :: bs => a == b && chStartsWith as bs

/-- Prefix test on strings (Rust `str::starts_with`), via character lists so
that it evaluates inside the kernel. -/
def strStartsWith (s p : String) : Bool := chStartsWith s.data p.data

/-- The `application/json` media type constant (`CONTENT_TYPE_JSON`). -/
def contentTypeJson : String := "application/json"

/-- The `application/x-www-form-urlencoded` media type constant
(`CONTENT_TYPE_FORMENCODED`). -/
def contentTypeFormEncoded : String := "application/x-www-form-urlencoded"

/-- Client authentication policy (`AuthType`). -/
inductive AuthType where
  | RequestBody
  | BasicAuth
deriving DecidableEq

/-- A wire-level HTTP response (`HttpResponse`): status code, the
`Content-Type` header (the only header the decoder reads; `none` = absent),
and the body.  The body is a string; the source holds bytes. -/
structure HttpResponse where
  status : Nat
  contentType : Option String
  body : String
deriving DecidableEq

/-- Error taxonomy for token requests (`RequestTokenError`).  `Parse` retains
the raw response body (second field in the source); the `serde_json` error
value is external and not modelled. -/
inductive RequestTokenError (RE TE : Type) where
  | ServerResponse (err : TE)
  | Request (e : RE)
  | Parse (raw : String)
  | Other (msg : String)
deriving DecidableEq

/-- Success-path tail of `endpoint_response`: empty-body check then body
parsing, `Parse` errors retaining the raw body. -/
def endpoint_response_body {RE TE DO : Type} (parseDO : String → Option DO)
    (r : HttpResponse) : Except (RequestTokenError RE TE) DO :=
  if r.body.isEmpty then
    .error (.Other "Server returned empty response body")
  else
    match parseDO r.body with
    | some v => .ok v
    | none => .error (.Parse r.body)

/-- Response decoder and error classifier (`endpoint_response`):
non-200 handling first, then `Content-Type` validation (case-insensitive
media-type-prefix match against `application/json`, missing header accepted),
then empty-body check, then success parsing.  `parseTE`/`parseDO` stand for
`serde_json::from_slice` at the error and success types. -/
def endpoint_response {RE TE DO : Type} (parseTE : String → Option TE)
    (parseDO : String → Option DO) (r : HttpResponse) :
    Except (RequestTokenError RE TE) DO :=
  if r.status ≠ 200 then
    if r.body.isEmpty then
      .error (.Other "Server returned empty error response")
    else
      match parseTE r.body with
      | some e => .error (.ServerResponse e)
      | none => .error (.Parse r.body)
  else
    match r.contentType with
    | some ct =>
      if strStartsWith (strLower ct) contentTypeJson then
        endpoint_response_body parseDO r
      else
        .error (.Other ("Unexpected response Content-Type: " ++ ct ++
          ", should be application/json"))
    | none => endpoint_response_body parseDO r

/-- Uppercase hexadecimal digit for percent-encoding. -/
def hexDigit (n : Nat) : Char :=
  if n < 10 then Char.ofNat (48 + n) else Char.ofNat (55 + n)

/-- Encoding of one byte under `form_urlencoded::byte_serialize`:
alphanumerics and `*-._` unchanged, space becomes `+`, everything else
percent-encoded with uppercase hex. -/
def formUrlByte (c : Nat) : List Char :=
  if (48 ≤ c ∧ c ≤ 57) ∨ (65 ≤ c ∧ c ≤ 90) ∨ (97 ≤ c ∧ c ≤ 122) ∨
      c = 42 ∨ c = 45 ∨ c = 46 ∨ c = 95 then
    [Char.ofNat c]
  else if c = 32 then
    [Char.ofNat 43]
  else
    [Char.ofNat 37, hexDigit (c / 16), hexDigit (c % 16)]

/-- Application/x-www-form-urlencoded percent-encoding of a string
(`form_urlencoded::byte_serialize`), over character code points. -/
def byte_serialize (s : String) : String :=
  String.mk (s.data.map (fun ch => formUrlByte ch.toNat)).flatten

/-- The standard base64 alphabet. -/
def base64Alphabet : List Char :=
  "ABCDEFGHIJKLMNOPQRSTUVWXYZabcdefghijklmnopqrstuvwxyz0123456789+/".data

/-- Character of the standard base64 alphabet at a 6-bit index. -/
def base64Char (n : Nat) : Char := base64Alphabet.getD n (Char.ofNat 65)

/-- Standard base64 encoding with `=` padding (`base64::encode`). -/
def base64Encode : List Nat → String
  | [] => ""
  | [a] =>
    String.mk [base64Char (a / 4), base64Char (a % 4 * 16),
      Char.ofNat 61, Char.ofNat 61]
  | [a, b] =>
    String.mk [base64Char (a / 4), base64Char (a % 4 * 16 + b / 16),
      base64Char (b % 16 * 4), Char.ofNat 61]
  | a :: b :: c :: rest =>
    String.mk [base64Char (a / 4), base64Char (a % 4 * 16 + b / 16),
      base64Char (b % 16 * 4 + c / 64), base64Char (c % 64)] ++
    base64Encode rest

/-- Code points (= bytes for ASCII data) of a string. -/
def strBytes (s : String) : List Nat := s.data.map Char.toNat

/-- A wire-level HTTP request (`HttpRequest`).  The ordered form-parameter
list is kept explicit; the source serializes it to the urlencoded body via
`form_urlencoded::Serializer::extend_pairs`, modelled by
`HttpRequest.body`. -/
structure HttpRequest where
  url : String
  method : String
  headers : List (String × String)
  params : List (String × String)
deriving DecidableEq

/-- Urlencoded body of a request: `k=v` pairs percent-encoded and joined
with `&` (`form_urlencoded::Serializer`). -/
def HttpRequest.body (r : HttpRequest) : String :=
  String.intercalate "&"
    (r.params.map (fun p => byte_serialize p.1 ++ "=" ++ byte_serialize p.2))

/-- The `Authorization` header value built by `endpoint_request` for
`AuthType::BasicAuth`: RFC 6749 §2.3.1 requires percent-encoding id and
secret independently before joining as `id:secret` and base64-encoding. -/
def basicAuthValue (client_id : String) (client_secret : Option String) :
    String :=
  "Basic " ++ base64Encode (strBytes
    (byte_serialize client_id ++ ":" ++
      ((client_secret.map byte_serialize).getD "")))

/-- Token-endpoint request assembler (`endpoint_request`): fixed
`Accept`/`Content-Type` headers; a single space-joined `scope` parameter when
the scope list is present and non-empty; client authentication per
`AuthType`; optional `redirect_uri`; extra parameters appended last. -/
def endpoint_request (auth_type : AuthType) (client_id : String)
    (client_secret : Option String) (extra_params : List (String × String))
    (redirect_url : Option String) (scopes : Option (List String))
    (url : String) (params0 : List (String × String)) : HttpRequest :=
  let headers0 := [("Accept", contentTypeJson),
    ("Content-Type", contentTypeFormEncoded)]
  let scopes_opt := scopes.bind (fun ss =>
    if ss.isEmpty then none else some (String.intercalate " " ss))
  let params1 := params0 ++
    (match scopes_opt with | some s => [("scope", s)] | none => [])
  let hp :=
    match auth_type with
    | .RequestBody =>
      (headers0, params1 ++ [("client_id", client_id)] ++
        (match client_secret with
         | some s => [("client_secret", s)]
         | none => []))
    | .BasicAuth =>
      (headers0 ++ [("Authorization", basicAuthValue client_id client_secret)],
        params1)
  let params3 := hp.2 ++
    (match redirect_url with | some u => [("redirect_uri", u)] | none => [])
  { url := url, method := "POST", headers := hp.1,
    params := params3 ++ extra_params }

/-- A URL modelled as an opaque base plus its ordered query-pair list
(`url::Url` restricted to what `AuthorizationRequest::url` observes:
`query_pairs_mut().extend_pairs` appends pairs to the existing query). -/
structure Url where
  base : String
  query : List (String × String)
deriving DecidableEq

/-- The authorization-URL builder (`AuthorizationRequest`): the PKCE
challenge is modelled as its `(as_str, method.as_str)` pair. -/
structure AuthorizationRequest where
  auth_url : Url
  client_id : String
  extra_params : List (String × String)
  pkce_challenge : Option (String × String)
  redirect_url : Option String
  response_type : String
  scopes : List String
  state : String
deriving DecidableEq

/-- Authorization-URL construction (`AuthorizationRequest::url`): appends
`response_type`, `client_id`, `state`, then the optional PKCE challenge and
method, then the optional `redirect_uri`, then — only when the space-joined
scope string is non-empty — a single `scope` pair, then the extra parameters,
to the query of the authorize endpoint; returns the URL with the CSRF state.
No request is sent: this is a pure function of the builder. -/
def AuthorizationRequest.url (r : AuthorizationRequest) : Url × String :=
  let scopesJoined := String.intercalate " " r.scopes
  let pairs :=
    [("response_type", r.response_type), ("client_id", r.client_id),
      ("state", r.state)] ++
    (match r.pkce_challenge with
     | some pc => [("code_challenge", pc.1), ("code_challenge_method", pc.2)]
     | none => []) ++
    (match r.redirect_url with
     | some u => [("redirect_uri", u)]
     | none => []) ++
    (if scopesJoined.isEmpty then [] else [("scope", scopesJoined)])
  ({ base := r.auth_url.base,
     query := r.auth_url.query ++ pairs ++ r.extra_params }, r.state)

/-- Largest `u64` value, for `Duration::checked_mul` overflow. -/
def u64Max : Nat := 2 ^ 64 - 1

/-- Largest `i64` value, for the `chrono::Duration::from_std` bound
(it fails when the duration exceeds `i64::MAX` milliseconds). -/
def i64Max : Nat := 2 ^ 63 - 1

/-- Duration doubling as `Duration::checked_mul(2)` on whole seconds:
`none` when the doubled value no longer fits in `u64`. -/
def checkedMul2 (d : Nat) : Option Nat :=
  if 2 * d ≤ u64Max then some (2 * d) else none

/-- Modelled from the spec: the device-code error-code enumeration
(`DeviceCodeErrorResponseType`, declared in the missing `devicecode` module).
The spec names `authorization_pending` and `slow_down` as continuation codes
and groups every other code as a terminal server error; RFC 8628 adds
`access_denied` and `expired_token`, and `Other` covers the basic OAuth2
codes. -/
inductive DeviceCodeErrorResponseType where
  | AuthorizationPending
  | SlowDown
  | AccessDenied
  | ExpiredToken
  | Other (code : String)
deriving DecidableEq

/-- Modelled from the spec: the device-code error response
(`DeviceCodeErrorResponse`, declared in the missing `devicecode` module): a
machine-readable error code, optional description, optional reference URI. -/
structure DeviceCodeErrorResponse where
  error : DeviceCodeErrorResponseType
  error_description : Option String
  error_uri : Option String
deriving DecidableEq

/-- Modelled from the spec: the device authorization response
(`DeviceAuthorizationResponse`, declared in the missing `devicecode` module):
device code (secret), user code, verification URL, expiry duration and poll
interval in whole seconds. -/
structure DeviceAuthorizationResponse where
  device_code : String
  user_code : String
  verification_uri : String
  expires_in : Nat
  interval : Nat
deriving DecidableEq

deriving instance DecidableEq for Except

/-- One classified outcome of a device-token poll iteration
(`DeviceAccessTokenPollResult`, declared in the missing `devicecode`
module but fully determined by its uses in `process_response`). -/
inductive DeviceAccessTokenPollResult (TR RE : Type) where
  | ContinueWithNewPollInterval (interval : Nat)
  | Done (res : Except (RequestTokenError RE DeviceCodeErrorResponse) TR)
deriving DecidableEq

/-- Poll-response classification
(`DeviceAccessTokenRequest::process_response`): a transport failure doubles
the interval (keeping it on `u64` overflow) and continues; a decoded
`authorization_pending` continues at the same interval; a decoded
`slow_down` continues at the interval plus 5 seconds; everything else —
any other server error, any `Parse`/`Other` outcome, or a decoded success —
is terminal. -/
def process_response {RE TR : Type}
    (parseErr : String → Option DeviceCodeErrorResponse)
    (parseTok : String → Option TR) (res : Except RE HttpResponse)
    (current_interval : Nat) : DeviceAccessTokenPollResult TR RE :=
  match res with
  | .error _ =>
    .ContinueWithNewPollInterval ((checkedMul2 current_interval).getD
      current_interval)
  | .ok http_response =>
    match endpoint_response parseErr parseTok http_response with
    | .error (.ServerResponse dcer) =>
      match dcer.error with
      | .AuthorizationPending =>
        .ContinueWithNewPollInterval current_interval
      | .SlowDown =>
        .ContinueWithNewPollInterval (current_interval + 5)
      | _ => .Done (.error (.ServerResponse dcer))
    | r => .Done r

/-- Absolute polling deadline (`DeviceAccessTokenRequest::compute_timeout`):
the caller-supplied timeout when given, otherwise the device authorization
`expires_in` of the device authorization response, added to the current clock reading.  The
`chrono::Duration::from_std` millisecond bound is modelled; timestamps are
unbounded integers, so `checked_add_signed` overflow does not arise. -/
def compute_timeout {RE : Type} (now : Int) (timeout : Option Nat)
    (expires_in : Nat) :
    Except (RequestTokenError RE DeviceCodeErrorResponse) Int :=
  let timeout_dur := timeout.getD expires_in
  if timeout_dur * 1000 ≤ i64Max then
    .ok (now + timeout_dur)
  else
    .error (.Other "Failed to convert duration")

/-- Observable trace of one polling run: the final result, the sleep
durations passed to the injected sleep function, and the number of token
requests issued. -/
structure PollTrace (TR RE : Type) where
  result : Except (RequestTokenError RE DeviceCodeErrorResponse) TR
  sleeps : List Nat
  requests : Nat
deriving DecidableEq

/-- Body of the blocking polling loop (`DeviceAccessTokenRequest::request`):
at each iteration the injected clock is read (`clock i` is the reading at
loop iteration `i`; reading 0 belongs to `compute_timeout`); a reading
strictly above the deadline terminates with `Other "Device code expired"`
before any request is prepared or sent; `prepare_request` fails the whole
call when no token URL is configured; otherwise the transport result
`respond i` is classified, a `Done` outcome terminates, and a continuation
records a sleep of the updated interval and repeats.  `fuel` bounds the
number of iterations; `none` means the loop did not settle within `fuel`. -/
def request_loop {RE TR : Type} (clock : Nat → Int)
    (respond : Nat → Except RE HttpResponse)
    (parseErr : String → Option DeviceCodeErrorResponse)
    (parseTok : String → Option TR) (hasTokenUrl : Bool) (deadline : Int) :
    Nat → Nat → Nat → Option (PollTrace TR RE)
  | 0, _, _ => none
  | fuel + 1, i, interval =>
    if deadline < clock i then
      some ⟨.error (.Other "Device code expired"), [], 0⟩
    else if hasTokenUrl then
      match process_response parseErr parseTok (respond i) interval with
      | .Done r => some ⟨r, [], 1⟩
      | .ContinueWithNewPollInterval new_interval =>
        match request_loop clock respond parseErr parseTok hasTokenUrl
            deadline fuel (i + 1) new_interval with
        | none => none
        | some t => some ⟨t.result, new_interval :: t.sleeps, t.requests + 1⟩
    else
      some ⟨.error (.Other "no token_url provided"), [], 0⟩

/-- The blocking device-token polling run
(`DeviceAccessTokenRequest::request`): compute the deadline from clock
reading 0, then run the loop from iteration 1 at the interval advertised
by the device authorization response. -/
def deviceRequest {RE TR : Type} (clock : Nat → Int)
    (respond : Nat → Except RE HttpResponse)
    (parseErr : String → Option DeviceCodeErrorResponse)
    (parseTok : String → Option TR) (hasTokenUrl : Bool)
    (dev_auth_resp : DeviceAuthorizationResponse) (timeout : Option Nat)
    (fuel : Nat) : Option (PollTrace TR RE) :=
  match compute_timeout (clock 0) timeout dev_auth_resp.expires_in with
  | .error e => some ⟨.error e, [], 0⟩
  | .ok deadline =>
    request_loop clock respond parseErr parseTok hasTokenUrl deadline fuel 1
      dev_auth_resp.interval

/-- Body of the suspending polling loop
(`DeviceAccessTokenRequest::request_async`), embedded separately from its own
source text; the async structure erases in the embedding, leaving the same
observable behaviour to be proved equal to that of the blocking loop. -/
def request_loop_async {RE TR : Type} (clock : Nat → Int)
    (respond : Nat → Except RE HttpResponse)
    (parseErr : String → Option DeviceCodeErrorResponse)
    (parseTok : String → Option TR) (hasTokenUrl : Bool) (deadline : Int) :
    Nat → Nat → Nat → Option (PollTrace TR RE)
  | 0, _, _ => none
  | fuel + 1, i, interval =>
    if deadline < clock i then
      some ⟨.error (.Other "Device code expired"), [], 0⟩
    else if hasTokenUrl then
      match process_response parseErr parseTok (respond i) interval with
      | .Done r => some ⟨r, [], 1⟩
      | .ContinueWithNewPollInterval new_interval =>
        match request_loop_async clock respond parseErr parseTok hasTokenUrl
            deadline fuel (i + 1) new_interval with
        | none => none
        | some t => some ⟨t.result, new_interval :: t.sleeps, t.requests + 1⟩
    else
      some ⟨.error (.Other "no token_url provided"), [], 0⟩

/-- The suspending device-token polling run
(`DeviceAccessTokenRequest::request_async`). -/
def deviceRequestAsync {RE TR : Type} (clock : Nat → Int)
    (respond : Nat → Except RE HttpResponse)
    (parseErr : String → Option DeviceCodeErrorResponse)
    (parseTok : String → Option TR) (hasTokenUrl : Bool)
    (dev_auth_resp : DeviceAuthorizationResponse) (timeout : Option Nat)
    (fuel : Nat) : Option (PollTrace TR RE) :=
  match compute_timeout (clock 0) timeout dev_auth_resp.expires_in with
  | .error e => some ⟨.error e, [], 0⟩
  | .ok deadline =>
    request_loop_async clock respond parseErr parseTok hasTokenUrl deadline
      fuel 1 dev_auth_resp.interval

/-- Minimal JSON value shape needed by the standard token response. -/
inductive Json where
  | str (s : String)
  | num (n : Nat)
deriving DecidableEq

/-- The standard token response (`StandardTokenResponse`) at its logical
field level, with the token type held as its wire string (`TT` decodes
case-insensitively) and `EF = EmptyExtraTokenFields` (whose flattening adds
no fields).  `expires_in` is `u64` seconds. -/
structure StandardTokenResponse where
  access_token : String
  token_type : String
  expires_in : Option Nat
  refresh_token : Option String
  scopes : Option (List String)
deriving DecidableEq

/-- Split a character list at every space character, as the Rust split used
by the scope helper (an empty list of characters yields one empty group). -/
def splitCh : List Char → List (List Char)
  | [] => [[]]
  | c :: rest =>
    if c = Char.ofNat 32 then
      [] :: splitCh rest
    else
      match splitCh rest with
      | [] => [[c]]
      | g :: gs => (c :: g) :: gs

/-- Join character lists with single spaces (inverse of `splitCh` on
space-free non-empty group lists). -/
def joinCh : List (List Char) → List Char
  | [] => []
  | [x] => x
  | x :: y :: rest => x ++ Char.ofNat 32 :: joinCh (y :: rest)

/-- Modelled from the spec: `helpers::serialize_space_delimited_vec`
(the `helpers` module is missing from src/): scopes are serialized as the
space-joined string. -/
def serialize_space_delimited_vec (l : List String) : String :=
  String.mk (joinCh (l.map String.data))

/-- Modelled from the spec: `helpers::deserialize_space_delimited_vec`
(the `helpers` module is missing from src/): the space-delimited field is
parsed into the list of individual scopes. -/
def deserialize_space_delimited_vec (s : String) : List String :=
  (splitCh s.data).map String.mk

/-- Serialization of the standard token response, following the serde
attributes on `StandardTokenResponse` in the source: field order
`access_token`, `token_type`, `expires_in`, `refresh_token`, `scope`;
`None` fields skipped; scopes space-joined under the name `scope`. -/
def serializeTokenResponse (r : StandardTokenResponse) :
    List (String × Json) :=
  [("access_token", .str r.access_token), ("token_type", .str r.token_type)]
  ++ (match r.expires_in with
      | some n => [("expires_in", Json.num n)]
      | none => [])
  ++ (match r.refresh_token with
      | some t => [("refresh_token", Json.str t)]
      | none => [])
  ++ (match r.scopes with
      | some s => [("scope", Json.str (serialize_space_delimited_vec s))]
      | none => [])

/-- First value bound to a field name in a JSON object. -/
def lookupField (o : List (String × Json)) (k : String) : Option Json :=
  (o.find? (fun p => p.1 = k)).map (fun p => p.2)

/-- Deserialization of the standard token response: required string fields
`access_token` and `token_type` (the latter decoded case-insensitively by
lowering, per `helpers::deserialize_untagged_enum_case_insensitive`,
modelled from the spec since `helpers` is missing from src/); optional
`expires_in`, `refresh_token`; the `scope` field space-split when present
and absent otherwise (`serde(default)`). -/
def deserializeTokenResponse (o : List (String × Json)) :
    Option StandardTokenResponse := do
  let ata ← match lookupField o "access_token" with
    | some (.str s) => some s
    | _ => none
  let tt ← match lookupField o "token_type" with
    | some (.str s) => some (strLower s)
    | _ => none
  let exp ← match lookupField o "expires_in" with
    | none => some none
    | some (.num n) => some (some n)
    | some _ => none
  let rt ← match lookupField o "refresh_token" with
    | none => some none
    | some (.str s) => some (some s)
    | some _ => none
  let sc ← match lookupField o "scope" with
    | none => some none
    | some (.str s) => some (some (deserialize_space_delimited_vec s))
    | some _ => none
  pure ⟨ata, tt, exp, rt, sc⟩

/-- Case-insensitive string equality, as used for token-type comparison. -/
def eqCI (a b : String) : Prop := strLower a = strLower b

/-- Acceptability of a response `Content-Type` header on the success path:
missing is accepted, a present value must case-insensitively start with the
`application/json` media-type prefix. -/
def contentTypeOk (r : HttpResponse) : Bool :=
  match r.contentType with
  | none => true
  | some ct => strStartsWith (strLower ct) contentTypeJson

/-- A decoded outcome the device polling loop retries: exactly a server
error whose code is `authorization_pending` or `slow_down`. -/
def retryable {RE TR : Type}
    (res : Except (RequestTokenError RE DeviceCodeErrorResponse) TR) :
    Bool :=
  match res with
  | .error (.ServerResponse dcer) =>
    match dcer.error with
    | .AuthorizationPending => true
    | .SlowDown => true
    | _ => false
  | _ => false

/-- Example device-code error parser for concrete runs: the bodies
`"pending"`, `"slow"` and `"denied"` decode to the corresponding server
errors, all other bodies fail to parse. -/
def exParseErr : String → Option DeviceCodeErrorResponse := fun b =>
  if b = "pending" then some ⟨.AuthorizationPending, none, none⟩
  else if b = "slow" then some ⟨.SlowDown, none, none⟩
  else if b = "denied" then some ⟨.AccessDenied, none, none⟩
  else none

/-- Example success parser for concrete runs: only the body `"token"`
decodes, to the token string itself. -/
def exParseTok : String → Option String := fun b =>
  if b = "token" then some "token" else none

/-- A 400 response carrying an `authorization_pending` error body. -/
def pendingResponse : HttpResponse :=
  ⟨400, some "application/json", "pending"⟩

/-- A 400 response carrying a `slow_down` error body. -/
def slowResponse : HttpResponse :=
  ⟨400, some "application/json", "slow"⟩

/-- A 400 response carrying an `access_denied` error body. -/
def deniedResponse : HttpResponse :=
  ⟨400, some "application/json", "denied"⟩

/-- A 200 response carrying a well-formed token body. -/
def okResponse : HttpResponse :=
  ⟨200, some "application/json", "token"⟩

/-- Example device authorization response: expiry 900s, interval 5s. -/
def exDevResp : DeviceAuthorizationResponse :=
  ⟨"devcode", "usercode", "https://verify.example", 900, 5⟩

/-- Transport returning `[authorization_pending, authorization_pending,
slow_down, success]` at loop iterations 1 to 4. -/
def exRespond : Nat → Except Unit HttpResponse := fun n =>
  if n = 1 then .ok pendingResponse
  else if n = 2 then .ok pendingResponse
  else if n = 3 then .ok slowResponse
  else .ok okResponse

/-- Device authorization response for the deadline counterexample:
expiry 10s, interval 5s. -/
def ceDevResp : DeviceAuthorizationResponse :=
  ⟨"devcode", "usercode", "https://verify.example", 10, 5⟩

/-- Clock for the deadline counterexample: reading 0 (taken by
`compute_timeout`) is 0, every later reading is 20. -/
def ceClock : Nat → Int := fun n => if n = 0 then 0 else 20

/-- Authorization request whose scope list is the non-empty list
containing one empty scope. -/
def ceAuthRequest : AuthorizationRequest :=
  { auth_url := ⟨"https://auth.example/authorize", [("aud", "x")]⟩,
    client_id := "cid",
    extra_params := [("p", "q")],
    pkce_challenge := none,
    redirect_url := none,
    response_type := "code",
    scopes := [""],
    state := "st" }

theorem lowerChar_fixes_lower (c : Char) (h : ¬(65 ≤ c.toNat ∧ c.toNat ≤ 90)) :
    lowerChar c = c := by
  simp [lowerChar, h]

theorem charOfNat_toNat_of_lower (m : Nat) (h1 : 97 ≤ m) (h2 : m ≤ 122) :
    (Char.ofNat m).toNat = m := by
  interval_cases m <;> decide

theorem lowerChar_idem (c : Char) : lowerChar (lowerChar c) = lowerChar c := by
  by_cases h : 65 ≤ c.toNat ∧ c.toNat ≤ 90
  · have hc : lowerChar c = Char.ofNat (c.toNat + 32) := by
      rw [lowerChar, if_pos h]
    have hv : (Char.ofNat (c.toNat + 32)).toNat = c.toNat + 32 :=
      charOfNat_toNat_of_lower _ (by omega) (by omega)
    rw [hc]
    exact lowerChar_fixes_lower _ (by rw [hv]; omega)
  · rw [lowerChar_fixes_lower c h]
    exact lowerChar_fixes_lower c h

theorem strLower_idem (s : String) : strLower (strLower s) = strLower s := by
  simp [strLower, List.map_map, Function.comp_def, lowerChar_idem]

theorem strLower_eqCI (s : String) : eqCI (strLower s) s :=
  strLower_idem s

theorem splitCh_no_space (x : List Char)
    (hx : ∀ c ∈ x, c ≠ Char.ofNat 32) : splitCh x = [x] := by
  induction x with
  | nil => rfl
  | cons c rest ih =>
    have hc : c ≠ Char.ofNat 32 := hx c (by simp)
    have hrest := ih (fun d hd => hx d (by simp [hd]))
    simp [splitCh, hc, hrest]

theorem splitCh_append (x r : List Char)
    (hx : ∀ c ∈ x, c ≠ Char.ofNat 32) :
    splitCh (x ++ Char.ofNat 32 :: r) = x :: splitCh r := by
  induction x with
  | nil => simp [splitCh]
  | cons c rest ih =>
    have hc : c ≠ Char.ofNat 32 := hx c (by simp)
    have hrest := ih (fun d hd => hx d (by simp [hd]))
    simp [splitCh, hc, hrest]

theorem splitCh_joinCh (l : List (List Char)) (hl : l ≠ [])
    (h : ∀ x ∈ l, ∀ c ∈ x, c ≠ Char.ofNat 32) : splitCh (joinCh l) = l := by
  induction l with
  | nil => exact absurd rfl hl
  | cons x rest ih =>
    cases rest with
    | nil => simpa [joinCh] using splitCh_no_space x (h x (by simp))
    | cons y rs =>
      have hx := h x (by simp)
      have hrest : ∀ z ∈ y :: rs, ∀ c ∈ z, c ≠ Char.ofNat 32 :=
        fun z hz => h z (by simp [hz])
      simp only [joinCh, splitCh_append x _ hx, ih (by simp) hrest]

theorem string_mk_data (s : String) : String.mk s.data = s := rfl

theorem scopes_round_trip (S : List String) (hS : S ≠ [])
    (h : ∀ s ∈ S, ∀ c ∈ s.data, c ≠ Char.ofNat 32) :
    deserialize_space_delimited_vec (serialize_space_delimited_vec S) = S := by
  unfold deserialize_space_delimited_vec serialize_space_delimited_vec
  have hdata : (String.mk (joinCh (S.map String.data))).data =
      joinCh (S.map String.data) := rfl
  rw [hdata, splitCh_joinCh (S.map String.data) (by simpa using hS)
    (by intro x hx; rcases List.mem_map.mp hx with ⟨s, hs, rfl⟩; exact h s hs)]
  rw [List.map_map]
  have hid : String.mk ∘ String.data = id := funext fun s => string_mk_data s
  rw [hid, List.map_id]

/-- C4: in the device access token polling loop, every transport failure is
transient: `process_response` classifies it as a continuation whose interval
is the doubled interval when doubling fits in `u64` and the unchanged prior
interval otherwise (never a failure), and the loop then proceeds at the same
deadline, recording one request and one sleep of the updated interval. -/
theorem c4_transport_failure_transient {RE TR : Type}
    (parseErr : String → Option DeviceCodeErrorResponse)
    (parseTok : String → Option TR) (e : RE) (interval : Nat)
    (clock : Nat → Int) (respond : Nat → Except RE HttpResponse)
    (deadline : Int) (fuel i : Nat) :
    process_response parseErr parseTok (.error e) interval =
      .ContinueWithNewPollInterval ((checkedMul2 interval).getD interval) ∧
    (2 * interval ≤ u64Max →
      process_response parseErr parseTok (.error e) interval =
        .ContinueWithNewPollInterval (2 * interval)) ∧
    (u64Max < 2 * interval →
      process_response parseErr parseTok (.error e) interval =
        .ContinueWithNewPollInterval interval) ∧
    (¬ deadline < clock i → respond i = .error e →
      request_loop clock respond parseErr parseTok true deadline (fuel + 1) i
          interval =
        match request_loop clock respond parseErr parseTok true deadline fuel
            (i + 1) ((checkedMul2 interval).getD interval) with
        | none => none
        | some t =>
          some ⟨t.result, ((checkedMul2 interval).getD interval) :: t.sleeps,
            t.requests + 1⟩) := by
  refine ⟨rfl, ?_, ?_, ?_⟩
  · intro h
    simp [process_response, checkedMul2, h]
  · intro h
    simp [process_response, checkedMul2, Nat.not_le.mpr h]
  · intro hdl hresp
    simp [request_loop, hdl, hresp, process_response]

/-- C7: the blocking and suspending polling entry points
(`request`/`request_async`) produce identical observable traces — result,
sleep sequence, and number of issued requests — for the same injected clock
and the same sequence of transport responses. -/
theorem c7_sync_async_equivalent {RE TR : Type} (clock : Nat → Int)
    (respond : Nat → Except RE HttpResponse)
    (parseErr : String → Option DeviceCodeErrorResponse)
    (parseTok : String → Option TR) (hasTokenUrl : Bool)
    (dev_auth_resp : DeviceAuthorizationResponse) (timeout : Option Nat)
    (deadline : Int) (fuel i interval : Nat) :
    request_loop clock respond parseErr parseTok hasTokenUrl deadline fuel i
        interval =
      request_loop_async clock respond parseErr parseTok hasTokenUrl deadline
        fuel i interval ∧
    deviceRequest clock respond parseErr parseTok hasTokenUrl dev_auth_resp
        timeout fuel =
      deviceRequestAsync clock respond parseErr parseTok hasTokenUrl
        dev_auth_resp timeout fuel := by
  have hloop : ∀ (f : Nat) (dl : Int) (j itv : Nat),
      request_loop clock respond parseErr parseTok hasTokenUrl dl f j itv =
        request_loop_async clock respond parseErr parseTok hasTokenUrl dl f j
          itv := by
    intro f
    induction f with
    | zero => intro dl j itv; rfl
    | succ n ih =>
      intro dl j itv
      simp only [request_loop, request_loop_async]
      cases hpr : process_response parseErr parseTok (respond j) itv <;>
        simp [hpr, ih]
  refine ⟨hloop fuel deadline i interval, ?_⟩
  unfold deviceRequest deviceRequestAsync
  cases @compute_timeout RE (clock 0) timeout dev_auth_resp.expires_in with
  | error e => rfl
  | ok deadline0 => exact hloop fuel deadline0 1 dev_auth_resp.interval

/-- Witness for C4: concrete transport failures at interval 5 (doubled to
10), at interval `2 ^ 63` (doubling overflows `u64`, interval kept), and a
concrete two-iteration loop run consisting of transport failures. -/
theorem c4_witness :
    (2 * 5 ≤ u64Max ∧
      process_response exParseErr exParseTok
          (Except.error () : Except Unit HttpResponse) 5 =
        .ContinueWithNewPollInterval (2 * 5)) ∧
    (u64Max < 2 * 2 ^ 63 ∧
      process_response exParseErr exParseTok
          (Except.error () : Except Unit HttpResponse) (2 ^ 63) =
        .ContinueWithNewPollInterval (2 ^ 63)) ∧
    request_loop (fun _ => (0 : Int)) (fun _ => Except.error ()) exParseErr
      exParseTok true 900 2 1 5 = none := by
  have h1 := @c4_transport_failure_transient Unit String exParseErr exParseTok
    () 5 (fun _ => (0 : Int)) (fun _ => Except.error ()) 900 1 1
  have h2 := @c4_transport_failure_transient Unit String exParseErr exParseTok
    () (2 ^ 63) (fun _ => (0 : Int)) (fun _ => Except.error ()) 900 1 1
  refine ⟨⟨by decide, h1.2.1 (by decide)⟩, ⟨by decide, h2.2.2.1 (by decide)⟩,
    ?_⟩
  have h4 := h1.2.2.2 (by decide) rfl
  rw [h4]
  decide

/-- C2: the response decoder classifies every HTTP response in order:
non-200 with empty body is the fixed `Other` error; non-200 with a body
parsing as the server error type is `ServerResponse`, otherwise `Parse` with
the raw body retained; a 200 response with a present `Content-Type` that
does not case-insensitively start with `application/json` is an `Other`
error while a missing header is accepted; an empty 200 body is an `Other`
error; and a 200 body that fails to parse as the success type is `Parse`
with the raw body, a parsing body succeeding. -/
theorem c2_response_classification {RE TE DO : Type}
    (parseTE : String → Option TE) (parseDO : String → Option DO)
    (r : HttpResponse) :
    (r.status ≠ 200 → r.body.isEmpty = true →
      @endpoint_response RE TE DO parseTE parseDO r =
        .error (.Other "Server returned empty error response")) ∧
    (∀ e, r.status ≠ 200 → r.body.isEmpty = false → parseTE r.body = some e →
      @endpoint_response RE TE DO parseTE parseDO r =
        .error (.ServerResponse e)) ∧
    (r.status ≠ 200 → r.body.isEmpty = false → parseTE r.body = none →
      @endpoint_response RE TE DO parseTE parseDO r =
        .error (.Parse r.body)) ∧
    (∀ ct, r.status = 200 → r.contentType = some ct →
      strStartsWith (strLower ct) contentTypeJson = false →
      @endpoint_response RE TE DO parseTE parseDO r =
        .error (.Other ("Unexpected response Content-Type: " ++ ct ++
          ", should be application/json"))) ∧
    (r.status = 200 → contentTypeOk r = true → r.body.isEmpty = true →
      @endpoint_response RE TE DO parseTE parseDO r =
        .error (.Other "Server returned empty response body")) ∧
    (r.status = 200 → contentTypeOk r = true → r.body.isEmpty = false →
      parseDO r.body = none →
      @endpoint_response RE TE DO parseTE parseDO r =
        .error (.Parse r.body)) ∧
    (∀ v, r.status = 200 → contentTypeOk r = true → r.body.isEmpty = false →
      parseDO r.body = some v →
      @endpoint_response RE TE DO parseTE parseDO r = .ok v) := by
  refine ⟨?_, ?_, ?_, ?_, ?_, ?_, ?_⟩
  · intro h he
    simp [endpoint_response, h, he]
  · intro e h he hp
    simp [endpoint_response, h, he, hp]
  · intro h he hp
    simp [endpoint_response, h, he, hp]
  · intro ct h hct hsw
    simp [endpoint_response, h, hct, hsw]
  · intro h hok he
    cases hct : r.contentType with
    | none => simp [endpoint_response, endpoint_response_body, h, hct, he]
    | some ct =>
      have hsw : strStartsWith (strLower ct) contentTypeJson = true := by
        simpa [contentTypeOk, hct] using hok
      simp [endpoint_response, endpoint_response_body, h, hct, hsw, he]
  · intro h hok he hp
    cases hct : r.contentType with
    | none =>
      simp [endpoint_response, endpoint_response_body, h, hct, he, hp]
    | some ct =>
      have hsw : strStartsWith (strLower ct) contentTypeJson = true := by
        simpa [contentTypeOk, hct] using hok
      simp [endpoint_response, endpoint_response_body, h, hct, hsw, he, hp]
  · intro v h hok he hp
    cases hct : r.contentType with
    | none =>
      simp [endpoint_response, endpoint_response_body, h, hct, he, hp]
    | some ct =>
      have hsw : strStartsWith (strLower ct) contentTypeJson = true := by
        simpa [contentTypeOk, hct] using hok
      simp [endpoint_response, endpoint_response_body, h, hct, hsw, he, hp]

/-- Witness for C2: the seven classification cases at concrete responses —
non-200 empty body, non-200 well-formed error body, non-200 malformed body,
200 with a mismatched `Content-Type`, 200 with missing header and empty
body, 200 malformed success body, and a 200 success. -/
theorem c2_witness :
    @endpoint_response Unit DeviceCodeErrorResponse String exParseErr exParseTok
        (⟨400, none, ""⟩ : HttpResponse) =
      .error (.Other "Server returned empty error response") ∧
    @endpoint_response Unit DeviceCodeErrorResponse String exParseErr exParseTok pendingResponse =
      .error (.ServerResponse ⟨.AuthorizationPending, none, none⟩) ∧
    @endpoint_response Unit DeviceCodeErrorResponse String exParseErr exParseTok
        (⟨400, none, "junk"⟩ : HttpResponse) = .error (.Parse "junk") ∧
    @endpoint_response Unit DeviceCodeErrorResponse String exParseErr exParseTok
        (⟨200, some "text/html", "token"⟩ : HttpResponse) =
      .error (.Other ("Unexpected response Content-Type: text/html" ++
        ", should be application/json")) ∧
    @endpoint_response Unit DeviceCodeErrorResponse String exParseErr exParseTok
        (⟨200, none, ""⟩ : HttpResponse) =
      .error (.Other "Server returned empty response body") ∧
    @endpoint_response Unit DeviceCodeErrorResponse String exParseErr exParseTok
        (⟨200, none, "junk"⟩ : HttpResponse) = .error (.Parse "junk") ∧
    @endpoint_response Unit DeviceCodeErrorResponse String exParseErr exParseTok okResponse =
      .ok "token" := by
  refine ⟨?_, ?_, ?_, ?_, ?_, ?_, ?_⟩
  · exact (c2_response_classification exParseErr exParseTok _).1
      (by decide) (by decide)
  · exact (c2_response_classification exParseErr exParseTok
      pendingResponse).2.1 _ (by decide) (by decide) (by decide)
  · exact (c2_response_classification exParseErr exParseTok _).2.2.1
      (by decide) (by decide) (by decide)
  · simpa using (c2_response_classification exParseErr exParseTok
      (⟨200, some "text/html", "token"⟩ : HttpResponse)).2.2.2.1 "text/html"
      rfl rfl (by decide)
  · exact (c2_response_classification exParseErr exParseTok _).2.2.2.2.1
      rfl (by simp [contentTypeOk]) (by decide)
  · exact (c2_response_classification exParseErr exParseTok _).2.2.2.2.2.1
      rfl (by simp [contentTypeOk]) (by decide) (by decide)
  · exact (c2_response_classification exParseErr exParseTok
      okResponse).2.2.2.2.2.2 "token" rfl (by simp [contentTypeOk]; decide)
      (by decide) (by decide)

/-- C10: in the device polling loop, every classified outcome that is not a
transport failure and not a server error with code `authorization_pending`
or `slow_down` — a `Parse` error, an `Other` error, any other server error,
or a decoded success — is terminal on first occurrence: `process_response`
returns it as `Done`, and the loop then stops at once with that result,
having issued exactly one request and slept zero further times. -/
theorem c10_nonretryable_terminal {RE TR : Type}
    (parseErr : String → Option DeviceCodeErrorResponse)
    (parseTok : String → Option TR) (resp : HttpResponse) (interval : Nat)
    (clock : Nat → Int) (respond : Nat → Except RE HttpResponse)
    (deadline : Int) (fuel i : Nat)
    (r : Except (RequestTokenError RE DeviceCodeErrorResponse) TR) :
    (retryable (@endpoint_response RE DeviceCodeErrorResponse TR parseErr
        parseTok resp) = false →
      process_response parseErr parseTok (Except.ok resp) interval =
        .Done (@endpoint_response RE DeviceCodeErrorResponse TR parseErr
          parseTok resp)) ∧
    (¬ deadline < clock i →
      process_response parseErr parseTok (respond i) interval = .Done r →
      request_loop clock respond parseErr parseTok true deadline (fuel + 1) i
          interval = some ⟨r, [], 1⟩) := by
  constructor
  · intro hret
    unfold retryable at hret
    rw [process_response]
    cases hres : @endpoint_response RE DeviceCodeErrorResponse TR parseErr
        parseTok resp with
    | ok v => rfl
    | error err =>
      cases err with
      | ServerResponse dcer =>
        obtain ⟨derr, ddesc, duri⟩ := dcer
        cases derr with
        | AuthorizationPending => rw [hres] at hret; simp at hret
        | SlowDown => rw [hres] at hret; simp at hret
        | AccessDenied => rfl
        | ExpiredToken => rfl
        | Other code => rfl
      | Request e => rfl
      | Parse raw => rfl
      | Other msg => rfl
  · intro hdl hpr
    simp [request_loop, hdl, hpr]

/-- Witness for C10: a first `access_denied` server error is returned
terminally by `process_response`, and a one-iteration loop run against a
success response stops immediately with the token, one request, no sleeps. -/
theorem c10_witness :
    @process_response Unit String exParseErr exParseTok (.ok deniedResponse)
        5 =
      .Done (.error (.ServerResponse ⟨.AccessDenied, none, none⟩)) ∧
    @request_loop Unit String (fun _ => (0 : Int))
        (fun _ => .ok okResponse) exParseErr exParseTok true 900 3 1 5 =
      some ⟨.ok "token", [], 1⟩ := by
  constructor
  · have h := (c10_nonretryable_terminal exParseErr exParseTok deniedResponse
      5 (fun _ => (0 : Int)) (fun _ => (.ok deniedResponse :
        Except Unit HttpResponse)) 900 1 1
      (.error (.ServerResponse ⟨.AccessDenied, none, none⟩))).1 (by decide)
    rw [h]
    decide
  · exact (c10_nonretryable_terminal exParseErr exParseTok okResponse 5
      (fun _ => (0 : Int)) (fun _ => .ok okResponse) 900 2 1
      (.ok "token")).2 (by decide) (by decide)

/-- C3: a decoded server error with code `authorization_pending` continues
polling at the unchanged interval and one with code `slow_down` continues at
the interval plus 5 seconds; consequently, the concrete run over
`[authorization_pending, authorization_pending, slow_down, success]`
starting at interval 5 sleeps exactly `[5, 5, 10]` seconds and terminates
with the token after the fourth response, issuing exactly 4 requests. -/
theorem c3_pending_and_slowdown {RE TR : Type}
    (parseErr : String → Option DeviceCodeErrorResponse)
    (parseTok : String → Option TR) (resp : HttpResponse) (interval : Nat)
    (dcer : DeviceCodeErrorResponse) :
    (@endpoint_response RE DeviceCodeErrorResponse TR parseErr parseTok
        resp = .error (.ServerResponse dcer) →
      (dcer.error = .AuthorizationPending →
        @process_response RE TR parseErr parseTok (Except.ok resp) interval =
          .ContinueWithNewPollInterval interval) ∧
      (dcer.error = .SlowDown →
        @process_response RE TR parseErr parseTok (Except.ok resp) interval =
          .ContinueWithNewPollInterval (interval + 5))) ∧
    deviceRequest (fun _ => (0 : Int)) exRespond exParseErr exParseTok true
        exDevResp none 10 =
      some ⟨.ok "token", [5, 5, 10], 4⟩ := by
  constructor
  · intro hres
    constructor
    · intro herr
      simp only [process_response]
      rw [hres]
      simp [herr]
    · intro herr
      simp only [process_response]
      rw [hres]
      simp [herr]
  · decide

/-- Witness for C3: the pending and slow-down continuation rules applied to
the concrete pending and slow-down responses at interval 5. -/
theorem c3_witness :
    process_response exParseErr exParseTok
        (Except.ok pendingResponse : Except Unit HttpResponse) 5 =
      .ContinueWithNewPollInterval 5 ∧
    process_response exParseErr exParseTok
        (Except.ok slowResponse : Except Unit HttpResponse) 5 =
      .ContinueWithNewPollInterval (5 + 5) := by
  constructor
  · exact ((c3_pending_and_slowdown exParseErr exParseTok pendingResponse 5
      ⟨.AuthorizationPending, none, none⟩).1 (by decide)).1 rfl
  · exact ((c3_pending_and_slowdown exParseErr exParseTok slowResponse 5
      ⟨.SlowDown, none, none⟩).1 (by decide)).2 rfl

/-- C1 (amended): the polling deadline equals the clock-0 reading plus the
caller timeout when one is given, otherwise plus the device authorization
`expires_in` of the device response (not the minimum of the two); whenever the injected
clock returns a time strictly exceeding that deadline, the loop terminates
at once with `Other "Device code expired"`, issuing no request and
recording no sleep. -/
theorem c1_deadline_and_expiry {RE TR : Type} (clock : Nat → Int)
    (respond : Nat → Except RE HttpResponse)
    (parseErr : String → Option DeviceCodeErrorResponse)
    (parseTok : String → Option TR) (hasTokenUrl : Bool)
    (dev_auth_resp : DeviceAuthorizationResponse) (timeout : Option Nat)
    (now deadline : Int) (fuel i interval : Nat) :
    ((timeout.getD dev_auth_resp.expires_in) * 1000 ≤ i64Max →
      @compute_timeout RE now timeout dev_auth_resp.expires_in =
        .ok (now + (timeout.getD dev_auth_resp.expires_in)) ∧
      deviceRequest clock respond parseErr parseTok hasTokenUrl dev_auth_resp
          timeout fuel =
        request_loop clock respond parseErr parseTok hasTokenUrl
          (clock 0 + (timeout.getD dev_auth_resp.expires_in)) fuel 1
          dev_auth_resp.interval) ∧
    (deadline < clock i →
      request_loop clock respond parseErr parseTok hasTokenUrl deadline
          (fuel + 1) i interval =
        some ⟨.error (.Other "Device code expired"), [], 0⟩) := by
  constructor
  · intro h
    constructor
    · simp [compute_timeout, h]
    · simp [deviceRequest, compute_timeout, h]
  · intro h
    simp [request_loop, h]

/-- Counterexample for C1 as stated: with caller timeout 40s and device
`expires_in` 10s starting at time 0, the claimed deadline
`start + min(caller_timeout, expires_in) = 10` is strictly exceeded by the
clock reading 20 at the first loop iteration, yet the run issues a request
and succeeds instead of expiring — the code uses the caller timeout alone;
moreover the expiration message is `"Device code expired"`, not the
claimed `"device code expired"`. -/
theorem c1_counterexample :
    ((0 : Int) + min 40 10 < ceClock 1) ∧
    deviceRequest ceClock
        (fun _ => (Except.ok okResponse : Except Unit HttpResponse))
        exParseErr exParseTok true ceDevResp (some 40) 5 =
      some ⟨.ok "token", [], 1⟩ ∧
    deviceRequest (fun n => if n = 0 then 0 else 1000)
        (fun _ => (Except.ok okResponse : Except Unit HttpResponse))
        exParseErr exParseTok true ceDevResp none 5 =
      some ⟨.error (.Other "Device code expired"), [], 0⟩ ∧
    "Device code expired" ≠ "device code expired" :=
  ⟨by decide, by decide, by decide, by decide⟩

/-- Witness for C1: the deadline of a run with caller timeout 40s from time
0 is 40, and a loop whose deadline 10 is exceeded by the clock reading 20
terminates immediately as expired. -/
theorem c1_witness :
    @compute_timeout Unit 0 (some 40) 10 = .ok (0 + 40) ∧
    request_loop ceClock
        (fun _ => (Except.ok okResponse : Except Unit HttpResponse))
        exParseErr exParseTok true 10 5 1 5 =
      some ⟨.error (.Other "Device code expired"), [], 0⟩ := by
  have h := @c1_deadline_and_expiry Unit String ceClock
    (fun _ => (Except.ok okResponse : Except Unit HttpResponse)) exParseErr
    exParseTok true ceDevResp (some 40) 0 10 4 1 5
  exact ⟨(h.1 (by decide)).1, h.2 (by decide)⟩

/-- C6: assembling a token-endpoint request with scope set S — absent any
caller-supplied parameter that collides with the reserved name `scope` —
produces, when S is non-empty, exactly one `scope` form parameter whose
value is the scopes of S joined by single spaces in insertion order, and no
`scope` parameter at all when S is empty. -/
theorem c6_scope_parameter (auth_type : AuthType) (client_id : String)
    (client_secret : Option String) (extra_params : List (String × String))
    (redirect_url : Option String) (S : List String) (url : String)
    (params0 : List (String × String))
    (hp : ∀ p ∈ params0, p.1 ≠ "scope")
    (he : ∀ p ∈ extra_params, p.1 ≠ "scope") :
    (S ≠ [] →
      (endpoint_request auth_type client_id client_secret extra_params
          redirect_url (some S) url params0).params.countP
          (fun p => p.1 == "scope") = 1 ∧
      ("scope", String.intercalate " " S) ∈
        (endpoint_request auth_type client_id client_secret extra_params
          redirect_url (some S) url params0).params) ∧
    (S = [] →
      (endpoint_request auth_type client_id client_secret extra_params
          redirect_url (some S) url params0).params.countP
          (fun p => p.1 == "scope") = 0) := by
  have h0 : params0.countP (fun p => p.1 == "scope") = 0 := by
    rw [List.countP_eq_zero]
    intro a ha
    simpa using hp a ha
  have h1 : extra_params.countP (fun p => p.1 == "scope") = 0 := by
    rw [List.countP_eq_zero]
    intro a ha
    simpa using he a ha
  constructor
  · intro hS
    cases S with
    | nil => exact absurd rfl hS
    | cons s ss =>
      cases auth_type <;> cases client_secret <;> cases redirect_url <;>
        exact ⟨by simp [endpoint_request, List.countP_append,
            List.countP_cons, h0, h1],
          by simp [endpoint_request]⟩
  · intro hS
    subst hS
    cases auth_type <;> cases client_secret <;> cases redirect_url <;>
      simp [endpoint_request, List.countP_append, List.countP_cons, h0, h1]

/-- Witness for C6: the scope parameter rules at a concrete request with
scopes `["a", "b"]` and at one with no scopes. -/
theorem c6_witness :
    (endpoint_request .RequestBody "cid" none [("p", "q")] none
        (some ["a", "b"]) "u" [("grant_type", "x")]).params.countP
        (fun p => p.1 == "scope") = 1 ∧
    ("scope", String.intercalate " " ["a", "b"]) ∈
      (endpoint_request .RequestBody "cid" none [("p", "q")] none
        (some ["a", "b"]) "u" [("grant_type", "x")]).params ∧
    (endpoint_request .RequestBody "cid" none [("p", "q")] none
        (some ([] : List String)) "u" [("grant_type", "x")]).params.countP
        (fun p => p.1 == "scope") = 0 := by
  have h := c6_scope_parameter .RequestBody "cid" none [("p", "q")] none
    ["a", "b"] "u" [("grant_type", "x")] (by decide) (by decide)
  have h2 := c6_scope_parameter .RequestBody "cid" none [("p", "q")] none
    [] "u" [("grant_type", "x")] (by decide) (by decide)
  exact ⟨(h.1 (by decide)).1, (h.1 (by decide)).2, h2.2 rfl⟩

theorem byte_serialize_empty : byte_serialize "" = "" := by decide

/-- C5: under `AuthType::BasicAuth` the headers of the assembled request end with
an `Authorization` header equal to `"Basic "` followed by the base64
encoding of `percent_encode(client_id) ++ ":" ++ percent_encode(secret)`,
the secret component being the empty string when no client secret is
configured; under `AuthType::RequestBody` no `Authorization` header is set
and `client_id` (and the secret when present) appear as form body
parameters instead. -/
theorem c5_client_authentication (client_id : String)
    (client_secret : Option String) (extra_params : List (String × String))
    (redirect_url : Option String) (scopes : Option (List String))
    (url : String) (params0 : List (String × String)) :
    (endpoint_request .BasicAuth client_id client_secret extra_params
        redirect_url scopes url params0).headers =
      [("Accept", contentTypeJson),
        ("Content-Type", contentTypeFormEncoded),
        ("Authorization", "Basic " ++ base64Encode (strBytes
          (byte_serialize client_id ++ ":" ++
            byte_serialize (client_secret.getD ""))))] ∧
    "Authorization" ∉
      ((endpoint_request .RequestBody client_id client_secret extra_params
        redirect_url scopes url params0).headers.map Prod.fst) ∧
    ("client_id", client_id) ∈
      (endpoint_request .RequestBody client_id client_secret extra_params
        redirect_url scopes url params0).params ∧
    (∀ s, client_secret = some s →
      ("client_secret", s) ∈
        (endpoint_request .RequestBody client_id client_secret extra_params
          redirect_url scopes url params0).params) := by
  refine ⟨?_, ?_, ?_, ?_⟩
  · cases client_secret with
    | none => simp [endpoint_request, basicAuthValue, byte_serialize_empty]
    | some sec => simp [endpoint_request, basicAuthValue]
  · simp [endpoint_request]
  · simp [endpoint_request]
  · intro s hs
    subst hs
    simp [endpoint_request]

/-- Witness for C5: concrete requests with client id `"cid"` and secret
`"sec"` under both authentication policies. -/
theorem c5_witness :
    ("client_secret", "sec") ∈
      (endpoint_request .RequestBody "cid" (some "sec") [] none none "u"
        []).params ∧
    (endpoint_request .BasicAuth "cid" (some "sec") [] none none "u"
        []).headers =
      [("Accept", contentTypeJson), ("Content-Type", contentTypeFormEncoded),
        ("Authorization", "Basic " ++ base64Encode (strBytes
          (byte_serialize "cid" ++ ":" ++ byte_serialize "sec")))] := by
  have h := c5_client_authentication "cid" (some "sec") [] none none "u" []
  exact ⟨h.2.2.2 "sec" rfl, h.1⟩

/-- C8 (amended): `url()` is a pure function of the builder returning the
CSRF state together with a URL whose base is unchanged and whose query is
the existing query of the authorize endpoint extended, in this order, with
`response_type`, `client_id`, `state`, then the optional PKCE challenge and
method, then the optional `redirect_uri`, then — when the space-joined
scope string is non-empty (not merely when the scope list is non-empty) — a
single space-joined `scope` parameter, then every extra parameter in
insertion order. -/
theorem c8_authorization_url (r : AuthorizationRequest) :
    (r.url).2 = r.state ∧
    (r.url).1.base = r.auth_url.base ∧
    ((String.intercalate " " r.scopes).isEmpty = false →
      (r.url).1.query =
        r.auth_url.query ++
          ([("response_type", r.response_type), ("client_id", r.client_id),
            ("state", r.state)] ++
           (match r.pkce_challenge with
            | some pc => [("code_challenge", pc.1),
                ("code_challenge_method", pc.2)]
            | none => []) ++
           (match r.redirect_url with
            | some u => [("redirect_uri", u)]
            | none => []) ++
           [("scope", String.intercalate " " r.scopes)]) ++
          r.extra_params) ∧
    ((String.intercalate " " r.scopes).isEmpty = true →
      (r.url).1.query =
        r.auth_url.query ++
          ([("response_type", r.response_type), ("client_id", r.client_id),
            ("state", r.state)] ++
           (match r.pkce_challenge with
            | some pc => [("code_challenge", pc.1),
                ("code_challenge_method", pc.2)]
            | none => []) ++
           (match r.redirect_url with
            | some u => [("redirect_uri", u)]
            | none => [])) ++
          r.extra_params) := by
  refine ⟨rfl, rfl, ?_, ?_⟩
  · intro h
    simp [AuthorizationRequest.url, h]
  · intro h
    simp [AuthorizationRequest.url, h]

/-- Counterexample for C8 as stated: a builder whose scope list is the
non-empty list `[""]` (a single empty scope) produces no `scope` query
parameter at all — the code omits the parameter whenever the space-joined
scope string is empty, which is not equivalent to the scope list being
non-empty. -/
theorem c8_counterexample :
    ceAuthRequest.scopes ≠ [] ∧
    "scope" ∉ ((ceAuthRequest.url).1.query.map Prod.fst) :=
  ⟨by decide, by decide⟩

/-- Witness for C8: the full query layout at a concrete builder with one
scope `"a"` and at the builder with joined-empty scopes. -/
theorem c8_witness :
    ({ ceAuthRequest with scopes := ["a"] } :
        AuthorizationRequest).url.1.query =
      [("aud", "x"), ("response_type", "code"), ("client_id", "cid"),
        ("state", "st"), ("scope", "a"), ("p", "q")] ∧
    (ceAuthRequest.url).1.query =
      [("aud", "x"), ("response_type", "code"), ("client_id", "cid"),
        ("state", "st"), ("p", "q")] := by
  have h1 := (c8_authorization_url
    { ceAuthRequest with scopes := ["a"] }).2.2.1 (by decide)
  have h2 := (c8_authorization_url ceAuthRequest).2.2.2 (by decide)
  rw [h1, h2]
  exact ⟨by decide, by decide⟩

/-- C9 (amended): serializing and then deserializing a standard token
response built from an arbitrary access token, token type in arbitrary
casing, optional expiry, optional refresh token, and optional scope list
reproduces the original logical value — the token type decoding lowercased,
hence equal case-insensitively, and an absent scope field decoding to an
absent scope list — provided each scope contains no space character and the
scope list, when present, is non-empty. -/
theorem c9_token_response_round_trip (r : StandardTokenResponse)
    (hscope : ∀ S, r.scopes = some S →
      S ≠ [] ∧ ∀ s ∈ S, ∀ c ∈ s.data, c ≠ Char.ofNat 32) :
    deserializeTokenResponse (serializeTokenResponse r) =
      some ⟨r.access_token, strLower r.token_type, r.expires_in,
        r.refresh_token, r.scopes⟩ ∧
    eqCI (strLower r.token_type) r.token_type := by
  refine ⟨?_, strLower_eqCI r.token_type⟩
  obtain ⟨ata, tt, exp, rt, sc⟩ := r
  have hrt : ∀ S, sc = some S →
      deserialize_space_delimited_vec (serialize_space_delimited_vec S) =
        S := by
    intro S hS
    obtain ⟨h1, h2⟩ := hscope S hS
    exact scopes_round_trip S h1 h2
  cases exp <;> cases rt <;> cases sc <;>
    simp [serializeTokenResponse, deserializeTokenResponse, lookupField] <;>
    exact hrt _ rfl

/-- Counterexample for C9 as stated: a scope containing a space does not
round-trip — the scope list `["a b"]` serializes to the field value
`"a b"`, which decodes back as `["a", "b"]`. -/
theorem c9_counterexample :
    deserializeTokenResponse (serializeTokenResponse
        ⟨"at", "Bearer", none, none, some ["a b"]⟩) =
      some ⟨"at", "bearer", none, none, some ["a", "b"]⟩ ∧
    (some ["a", "b"] : Option (List String)) ≠ some ["a b"] :=
  ⟨by decide, by decide⟩

/-- Witness for C9: the round trip at a concrete response with mixed-case
token type `"BeArEr"`, expiry, refresh token, and scopes `["a", "b"]`. -/
theorem c9_witness :
    deserializeTokenResponse (serializeTokenResponse
        ⟨"at", "BeArEr", some 77, some "rt", some ["a", "b"]⟩) =
      some ⟨"at", strLower "BeArEr", some 77, some "rt",
        some ["a", "b"]⟩ ∧
    eqCI (strLower "BeArEr") "BeArEr" := by
  have hsc : ∀ S, (some ["a", "b"] : Option (List String)) = some S →
      S ≠ [] ∧ ∀ s ∈ S, ∀ c ∈ s.data, c ≠ Char.ofNat 32 := by
    intro S hS
    injection hS with h
    subst h
    exact ⟨by decide, by decide⟩
  exact c9_token_response_round_trip
    ⟨"at", "BeArEr", some 77, some "rt", some ["a", "b"]⟩ hsc

end OAuth2
